import Mathlib

/-!
# Verification of the aws-cost-analyzer scanning core

A shallow embedding, in Lean 4, of the scanning-and-caching core of the
`aws-cost-analyzer` repository, together with theorems settling the frozen
claims about it.

Modelling conventions:

* Remote calls that may fail with `botocore.exceptions.ClientError` are
  modelled as values of `Except ClientError r`.  A call site that may be
  invoked several times (because it sits under the retry helper) is modelled
  as a function `Nat → Except ClientError r` from the zero-based invocation
  index to that invocation's outcome.
* Wall-clock time is an `Int` counting seconds; `datetime.now()` becomes an
  explicit `now` parameter.  `timedelta.days` is floor division by 86400.
* Python's `dict` cache is an association list with at most one entry per
  key (insertion re-conses in front and drops the old entry, as observable
  dict behaviour dictates).
* Python `float` money amounts are modelled as exact rationals; `round(x, n)`
  becomes banker's rounding (round-half-to-even) on rationals, which agrees
  with Python on every value the claims touch.
-/

/-- A `botocore` `ClientError`, reduced to the two fields the code reads:
`e.response['Error']['Code']` and `e.response['Error']['Message']`. -/
structure ClientError where
  code : String
  message : String
deriving DecidableEq, Repr

/-- `base_scanner.py` line 102: the retryable error-code allow-list. -/
def retryableErrors : List String :=
  ["Throttling", "ServiceUnavailable", "RequestLimitExceeded"]

/-- The loop of `BaseScanner._retry_aws_call` (`base_scanner.py` lines
105-116), by recursion on the number of loop iterations that remain.
`remaining` is `max_retries - attempt`; `attempt` is the current zero-based
attempt index.  Returns the outcome together with the number of times `func`
was invoked.  The `remaining = 0` base case corresponds to the code after
the `for` loop, reachable only when `max_retries = 0` (the Python raises
`RuntimeError` there; we model it as an error value). -/
def retryFrom (func : Nat → Except ClientError α) :
    Nat → Nat → Except ClientError α × Nat
  | 0, _ => (.error ⟨"RuntimeError", "Retry logic failed unexpectedly"⟩, 0)
  | remaining + 1, attempt =>
    match func attempt with
    | .ok v => (.ok v, 1)
    | .error e =>
      if e.code ∈ retryableErrors ∧ remaining ≠ 0 then
        let r := retryFrom func remaining (attempt + 1)
        (r.1, r.2 + 1)
      else
        (.error e, 1)

/-- `BaseScanner._retry_aws_call(func, max_retries=3)`: run `func`, retrying
transient errors with backoff, up to `maxRetries` total invocations.
(The sleeping between attempts has no observable effect in this model.)
Returns the outcome and the number of invocations of `func`. -/
def retry_aws_call (func : Nat → Except ClientError α) (maxRetries : Nat := 3) :
    Except ClientError α × Nat :=
  retryFrom func maxRetries 0

/-- The process-wide result cache `BaseScanner._cache`: a mapping from cache
key to `(payload, timestamp)`, modelled as an association list with at most
one entry per key. -/
abbrev Cache (α : Type) := List (String × α × Int)

/-- `BaseScanner._cache_ttl = timedelta(minutes=5)`, in seconds. -/
def cache_ttl : Int := 300

/-- `BaseScanner._get_cached` (`base_scanner.py` lines 24-34): return the
cached payload if present and younger than the TTL; if present but expired,
delete the entry as a side effect and return `none`.  The pair is
`(returned value, cache after the call)`. -/
def get_cached (cache : Cache α) (now : Int) (key : String) :
    Option α × Cache α :=
  match cache.lookup key with
  | some (data, timestamp) =>
    if now - timestamp < cache_ttl then (some data, cache)
    else (none, cache.filter fun e => e.1 ≠ key)
  | none => (none, cache)

/-- `BaseScanner._set_cache` (`base_scanner.py` lines 60-63): insert or
overwrite the entry for `key` with the current timestamp. -/
def set_cache (cache : Cache α) (now : Int) (key : String) (data : α) :
    Cache α :=
  (key, data, now) :: cache.filter fun e => e.1 ≠ key

/-- `BaseScanner._clear_cache` (`base_scanner.py` lines 65-76): remove one
entry, or clear the whole cache when no key is given. -/
def clear_cache (cache : Cache α) (key : Option String) : Cache α :=
  match key with
  | some k => cache.filter fun e => e.1 ≠ k
  | none => []

/-- `BaseScanner._build_cache_key` (`base_scanner.py` lines 36-58): the scan
fingerprint `region:resource_type:param1:value1:param2:value2`, parameters
sorted by name.  Parameter names and values arrive already stringified
(Python applies `str` to each). -/
def build_cache_key (region resource_type : String)
    (params : List (String × String)) : String :=
  let sorted_params := params.mergeSort fun a b => a.1 ≤ b.1
  let key_parts := [region, resource_type] ++
    sorted_params.foldr (fun p acc => p.1 :: p.2 :: acc) []
  String.intercalate ":" key_parts

/-- The flattening of sorted parameter pairs performed by the loop in
`_build_cache_key` (`key_parts.append` of name then value). -/
def flattenPairs (ps : List (String × String)) : List String :=
  ps.foldr (fun p acc => p.1 :: p.2 :: acc) []

/-- A string is colon-free when the `':'` separator does not occur in it. -/
def colonFree (s : String) : Prop := ':' ∉ s.data

instance (s : String) : Decidable (colonFree s) :=
  inferInstanceAs (Decidable (':' ∉ s.data))

/-- Python's `round(x, ndigits)` on exact decimal values: scale, round half
to even, unscale. -/
def pythonRound (q : ℚ) (ndigits : Nat) : ℚ :=
  let scale : ℚ := (10 : ℚ) ^ ndigits
  let x := q * scale
  let f : ℤ := ⌊x⌋
  let r : ℚ := x - f
  let n : ℤ :=
    if r < 1 / 2 then f
    else if 1 / 2 < r then f + 1
    else if f % 2 = 0 then f else f + 1
  (n : ℚ) / scale

/-- Python's `f"{x:.2f}"` on a non-negative amount that is an exact multiple
of a cent (every cost in this program is, having passed `round(_, 2)`). -/
def formatMoney2 (q : ℚ) : String :=
  let cents : ℤ := ⌊q * 100⌋
  toString (cents / 100) ++ "." ++
    (if cents % 100 < 10 then "0" else "") ++ toString (cents % 100)

/-- `timedelta.days`: whole days between two timestamps (seconds), floor
division as in Python. -/
def ageDays (now t : Int) : Int := (now - t).fdiv 86400

/-- A raw volume dictionary as returned in a `describe_volumes` page.
`none` models an absent dictionary key (every read in the code supplies a
default via `.get`). -/
structure EbsVolume where
  volumeId : Option String
  size : Option Nat
  volumeType : Option String
  availabilityZone : Option String
  createTime : Option Int
  state : Option String
deriving DecidableEq, Repr

/-- The flagged-resource record built by `EBSScanner._process_unattached_volume`. -/
structure VolumeRecord where
  volume_id : String
  size : Nat
  volume_type : String
  create_time : Int
  availability_zone : String
  age_days : Int
  recommendation : String
  monthly_cost : ℚ
deriving DecidableEq, Repr

/-- The static price table of `EBSScanner._calculate_monthly_cost`
(`ebs_scanner.py` lines 87-95), dollars per GB-month. -/
def ebsPricing : List (String × ℚ) :=
  [("gp3", 8 / 100), ("gp2", 10 / 100), ("io1", 125 / 1000),
   ("io2", 125 / 1000), ("st1", 45 / 1000), ("sc1", 15 / 1000),
   ("standard", 5 / 100)]

/-- `EBSScanner._calculate_monthly_cost` (`ebs_scanner.py` lines 82-97):
`round(size_gb * pricing.get(volume_type, 0.10), 2)`. -/
def calculate_monthly_cost (size_gb : Nat) (volume_type : String) : ℚ :=
  let price_per_gb := (ebsPricing.lookup volume_type).getD (10 / 100)
  pythonRound ((size_gb : ℚ) * price_per_gb) 2

/-- `EBSScanner._generate_recommendation` (`ebs_scanner.py` lines 99-108). -/
def ebs_generate_recommendation (age_days : Int) (cost : ℚ) : String :=
  if age_days > 30 then
    "DELETE - Unattached for " ++ toString age_days ++ " days, wasting $" ++
      formatMoney2 cost ++ "/month"
  else if age_days > 7 then
    "REVIEW - Unattached for " ++ toString age_days ++ " days, costing $" ++
      formatMoney2 cost ++ "/month"
  else
    "MONITOR - Recently detached, costing $" ++ formatMoney2 cost ++ "/month"

/-- `EBSScanner._process_unattached_volume` (`ebs_scanner.py` lines 53-80). -/
def process_unattached_volume (now : Int) (volume : EbsVolume) : VolumeRecord :=
  let volume_id := volume.volumeId.getD "unknown"
  let size := volume.size.getD 0
  let volume_type := volume.volumeType.getD "gp2"
  let availability_zone := volume.availabilityZone.getD "unknown"
  let create_time := volume.createTime.getD now
  let age_days := ageDays now create_time
  let monthly_cost := calculate_monthly_cost size volume_type
  { volume_id := volume_id
    size := size
    volume_type := volume_type
    create_time := create_time
    availability_zone := availability_zone
    age_days := age_days
    recommendation := ebs_generate_recommendation age_days monthly_cost
    monthly_cost := monthly_cost }

/-- The `try:` block of `EBSScanner.scan_unattached_volumes` (`ebs_scanner.py`
lines 34-52).  `listPages` is the `lambda: list(response.paginate())` call,
indexed by retry attempt; a page is its `'Volumes'` list.  Returns the scan
result together with the cache state after the call. -/
def ebsScanRemote (cache : Cache (List VolumeRecord)) (now : Int)
    (use_cache : Bool) (cache_key : String)
    (listPages : Nat → Except ClientError (List (List EbsVolume))) :
    List VolumeRecord × Cache (List VolumeRecord) :=
  match retry_aws_call listPages 3 with
  | (.ok pages, _) =>
    let unattached_volumes := pages.foldr (· ++ ·) [] |>.filterMap fun volume =>
      if volume.state = some "available" then
        some (process_unattached_volume now volume)
      else none
    if use_cache then
      (unattached_volumes, set_cache cache now cache_key unattached_volumes)
    else (unattached_volumes, cache)
  | (.error _, _) => ([], cache)

/-- `EBSScanner.scan_unattached_volumes` (`ebs_scanner.py` lines 17-52),
with the cache state threaded explicitly. -/
def scan_unattached_volumes (region : String) (cache : Cache (List VolumeRecord))
    (now : Int) (use_cache : Bool)
    (listPages : Nat → Except ClientError (List (List EbsVolume))) :
    List VolumeRecord × Cache (List VolumeRecord) :=
  let cache_key := build_cache_key region "unattached_volumes" []
  if use_cache then
    match get_cached cache now cache_key with
    | (some cached, cache') => (cached, cache')
    | (none, cache') => ebsScanRemote cache' now use_cache cache_key listPages
  else ebsScanRemote cache now use_cache cache_key listPages

/-- The lazily-loaded volume attributes read by `EC2Scanner._calculate_ebs_cost`
(`ec2_resource.Volume(id).volume_type` and `.size`). -/
structure Ec2VolumeInfo where
  volume_type : String
  size : Nat
deriving DecidableEq, Repr

/-- One entry of an instance's `'BlockDeviceMappings'` list: `ebs` is
`some volumeId` when the `'Ebs'` key is present (holding `'VolumeId'`). -/
structure Ec2Bdm where
  ebs : Option String
deriving DecidableEq, Repr

/-- A raw instance dictionary from a `describe_instances` page.  The keys the
code reads with `[...]` (no default) are plain fields; `'BlockDeviceMappings'`
is read with `.get(..., [])`, so an absent key coincides with `[]`. -/
structure Ec2Instance where
  instanceId : String
  instanceType : String
  launchTime : Int
  blockDeviceMappings : List Ec2Bdm
deriving DecidableEq, Repr

/-- The flagged-resource record built by `EC2Scanner._process_stopped_instance`.
`launch_time` is serialized with `isoformat()` in the code; the timestamp is
kept here (the serialization is injective). -/
structure InstanceRecord where
  instance_id : String
  instance_type : String
  state : String
  launch_time : Int
  age_days : Int
  ebs_monthly_cost : ℚ
  recommendation : String
deriving DecidableEq, Repr

/-- `EC2Scanner._calculate_ebs_cost` (`ec2_scanner.py` lines 80-95).
`vol` is the per-volume attribute lookup; a lookup failure skips that
volume's contribution (`continue`). -/
def calculate_ebs_cost (vol : String → Except ClientError Ec2VolumeInfo)
    (inst : Ec2Instance) : ℚ :=
  let step := fun (total : ℚ) (bdm : Ec2Bdm) =>
    match bdm.ebs with
    | none => total
    | some volume_id =>
      match vol volume_id with
      | .ok v =>
        total + (if v.volume_type = "gp3" then 8 / 100 else 10 / 100) * v.size
      | .error _ => total
  pythonRound (inst.blockDeviceMappings.foldl step 0) 2

/-- `EC2Scanner._generate_recommendation` (`ec2_scanner.py` lines 97-106). -/
def ec2_generate_recommendation (age_days : Int) (ebs_cost : ℚ) : String :=
  if age_days > 30 then
    "TERMINATE - Stopped for " ++ toString age_days ++ " days, wasting $" ++
      formatMoney2 ebs_cost ++ "/month"
  else if age_days > 7 then
    "REVIEW - Stopped for " ++ toString age_days ++ " days, costing $" ++
      formatMoney2 ebs_cost ++ "/month"
  else
    "MONITOR - Recently stopped, costing $" ++ formatMoney2 ebs_cost ++ "/month"

/-- `EC2Scanner._process_stopped_instance` (`ec2_scanner.py` lines 59-78). -/
def process_stopped_instance (now : Int)
    (vol : String → Except ClientError Ec2VolumeInfo)
    (inst : Ec2Instance) : InstanceRecord :=
  let age_days := ageDays now inst.launchTime
  let ebs_cost := calculate_ebs_cost vol inst
  { instance_id := inst.instanceId
    instance_type := inst.instanceType
    state := "stopped"
    launch_time := inst.launchTime
    age_days := age_days
    ebs_monthly_cost := ebs_cost
    recommendation := ec2_generate_recommendation age_days ebs_cost }

/-- The `try:` block of `EC2Scanner.scan_stopped_instances` (`ec2_scanner.py`
lines 36-57).  `paginate` is the server-side-filtered `describe_instances`
pagination (a page is its list of reservations, each a list of instances).
The pagination is issued exactly once and is NOT wrapped by the retry
helper; any `ClientError` raised by it is caught by the scanner's
`except ClientError` clause, which returns `[]`. -/
def ec2ScanRemote (cache : Cache (List InstanceRecord)) (now : Int)
    (use_cache : Bool) (cache_key : String)
    (paginate : Nat → Except ClientError (List (List (List Ec2Instance))))
    (vol : String → Except ClientError Ec2VolumeInfo) :
    List InstanceRecord × Cache (List InstanceRecord) :=
  match paginate 0 with
  | .ok pages =>
    let stopped_instances :=
      ((pages.flatten).flatten).map (process_stopped_instance now vol)
    if use_cache then
      (stopped_instances, set_cache cache now cache_key stopped_instances)
    else (stopped_instances, cache)
  | .error _ => ([], cache)

/-- `EC2Scanner.scan_stopped_instances` (`ec2_scanner.py` lines 19-57),
with the cache state threaded explicitly. -/
def scan_stopped_instances (region : String)
    (cache : Cache (List InstanceRecord)) (now : Int) (use_cache : Bool)
    (paginate : Nat → Except ClientError (List (List (List Ec2Instance))))
    (vol : String → Except ClientError Ec2VolumeInfo) :
    List InstanceRecord × Cache (List InstanceRecord) :=
  let cache_key := build_cache_key region "stopped_instances" []
  if use_cache then
    match get_cached cache now cache_key with
    | (some cached, cache') => (cached, cache')
    | (none, cache') => ec2ScanRemote cache' now use_cache cache_key paginate vol
  else ec2ScanRemote cache now use_cache cache_key paginate vol

/-- A raw snapshot dictionary from a `describe_snapshots` page (all four keys
are read with `[...]`, no default). -/
structure Snapshot where
  snapshotId : String
  volumeId : String
  volumeSize : Nat
  startTime : Int
deriving DecidableEq, Repr

/-- The flagged-resource record built by `SnapshotScanner._process_snapshots`. -/
structure SnapshotRecord where
  snapshot_id : String
  volume_id : String
  start_time : Int
  size_gb : Nat
  age_days : Int
  monthly_cost : ℚ
  volume_exists : Bool
  recommendation : String
deriving DecidableEq, Repr

/-- `SnapshotScanner._check_volume_exists` (`snapshot_scanner.py` lines
84-98).  `describeVols` is the retried `describe_volumes(VolumeIds=[id])`
call, indexed by volume id and retry attempt; its payload is irrelevant
(only success matters).  An `'InvalidVolume.NotFound'` error is a normal
negative result; every other error is re-raised. -/
def check_volume_exists (describeVols : String → Nat → Except ClientError Unit)
    (volume_id : String) : Except ClientError Bool :=
  if volume_id = "unknown" then .ok false
  else
    match retry_aws_call (describeVols volume_id) 3 with
    | (.ok _, _) => .ok true
    | (.error e, _) =>
      if e.code = "InvalidVolume.NotFound" then .ok false else .error e

/-- `SnapshotScanner._generate_recommendation` (`snapshot_scanner.py` lines
100-109). -/
def snapshot_generate_recommendation (age_days : Int) (cost : ℚ)
    (volume_exists : Bool) : String :=
  if age_days > 180 ∧ ¬volume_exists then
    "DELETE - Orphaned snapshot (volume gone), " ++ toString age_days ++
      " days old, $" ++ formatMoney2 cost ++ "/month"
  else if age_days > 180 then
    "REVIEW - Very old (" ++ toString age_days ++ " days), $" ++
      formatMoney2 cost ++ "/month"
  else
    "MONITOR - Old snapshot (" ++ toString age_days ++ " days), $" ++
      formatMoney2 cost ++ "/month"

/-- `SnapshotScanner._process_snapshots` (`snapshot_scanner.py` lines 56-82).
Returns `ok none` for a snapshot younger than the threshold, `ok (some r)`
for an old one, and `error e` when the source-volume existence lookup raises
an error other than not-found. -/
def process_snapshots (now : Int)
    (describeVols : String → Nat → Except ClientError Unit)
    (age_threshold_days : Int) (snapshot : Snapshot) :
    Except ClientError (Option SnapshotRecord) :=
  let age_days := ageDays now snapshot.startTime
  if age_days < age_threshold_days then .ok none
  else
    let monthly_cost := pythonRound ((snapshot.volumeSize : ℚ) * (5 / 100)) 2
    match check_volume_exists describeVols snapshot.volumeId with
    | .error e => .error e
    | .ok volume_exists =>
      .ok (some
        { snapshot_id := snapshot.snapshotId
          volume_id := snapshot.volumeId
          start_time := snapshot.startTime
          size_gb := snapshot.volumeSize
          age_days := age_days
          monthly_cost := monthly_cost
          volume_exists := volume_exists
          recommendation :=
            snapshot_generate_recommendation age_days monthly_cost volume_exists })

/-- The `try:` block of `SnapshotScanner.scan_old_snapshots`
(`snapshot_scanner.py` lines 34-54).  The whole pagination
(`lambda: list(paginator.paginate(OwnerIds=['self']))`) is wrapped once by
the retry helper; each snapshot is then processed in order, and any
`ClientError` escaping a per-snapshot volume lookup aborts the loop and is
caught by the scanner's `except ClientError`, which returns `[]`. -/
def snapshotScanRemote (cache : Cache (List SnapshotRecord)) (now : Int)
    (age_threshold_days : Int) (use_cache : Bool) (cache_key : String)
    (listPages : Nat → Except ClientError (List (List Snapshot)))
    (describeVols : String → Nat → Except ClientError Unit) :
    List SnapshotRecord × Cache (List SnapshotRecord) :=
  match retry_aws_call listPages 3 with
  | (.ok pages, _) =>
    let processed := pages.flatten.foldlM
      (fun acc snapshot =>
        (process_snapshots now describeVols age_threshold_days snapshot).map
          fun o => acc ++ o.toList)
      ([] : List SnapshotRecord)
    match processed with
    | .ok old_snapshots =>
      if use_cache then
        (old_snapshots, set_cache cache now cache_key old_snapshots)
      else (old_snapshots, cache)
    | .error _ => ([], cache)
  | (.error _, _) => ([], cache)

/-- `SnapshotScanner.scan_old_snapshots` (`snapshot_scanner.py` lines 16-54),
with the cache state threaded explicitly. -/
def scan_old_snapshots (region : String) (cache : Cache (List SnapshotRecord))
    (now : Int) (age_threshold_days : Int) (use_cache : Bool)
    (listPages : Nat → Except ClientError (List (List Snapshot)))
    (describeVols : String → Nat → Except ClientError Unit) :
    List SnapshotRecord × Cache (List SnapshotRecord) :=
  let cache_key := build_cache_key region "old_snapshots"
    [("age_threshold", toString age_threshold_days)]
  if use_cache then
    match get_cached cache now cache_key with
    | (some cached, cache') => (cached, cache')
    | (none, cache') =>
      snapshotScanRemote cache' now age_threshold_days use_cache cache_key
        listPages describeVols
  else
    snapshotScanRemote cache now age_threshold_days use_cache cache_key
      listPages describeVols

/-- A raw bucket dictionary from `list_buckets` (both keys read with `[...]`). -/
structure S3Bucket where
  name : String
  creationDate : Int
deriving DecidableEq, Repr

/-- The flagged-resource record built inside `S3Scanner.scan_unused_buckets`.
`creation_date` is serialized with `isoformat()` in the code; the timestamp
is kept here (the serialization is injective). -/
structure BucketRecord where
  bucket_name : String
  creation_date : Int
  age_days : Int
  is_empty : Bool
  monthly_cost : ℚ
  recommendation : String
deriving DecidableEq, Repr

/-- `S3Scanner._generate_recommendation` (`s3_scanner.py` lines 79-88). -/
def s3_generate_recommendation (is_empty : Bool) (age_days : Int) : String :=
  if is_empty ∧ age_days > 30 then
    "DELETE - Empty bucket, " ++ toString age_days ++ " days old"
  else if age_days > 180 then
    "REVIEW - Bucket " ++ toString age_days ++ " days old, check if still needed"
  else
    "MONITOR - Recently created or has content"

/-- The emptiness probe of `S3Scanner.scan_unused_buckets` (`s3_scanner.py`
lines 48-54): a retried `list_objects_v2(Bucket=name, MaxKeys=1)`.  The
response's `'Contents'` key is `none` when absent; the bucket is empty when
the key is absent or its list is empty.  If the probe raises any
`ClientError` (after retries), the bucket is treated as NOT empty. -/
def s3_probe_is_empty (probe : Nat → Except ClientError (Option (List String))) :
    Bool :=
  match retry_aws_call probe 3 with
  | (.ok objects, _) =>
    match objects with
    | none => true
    | some contents => contents.isEmpty
  | (.error _, _) => false

/-- The per-bucket body of the loop in `S3Scanner.scan_unused_buckets`
(`s3_scanner.py` lines 44-68): `some record` when the bucket is flagged
(empty or older than 90 days), `none` otherwise. -/
def s3_flag_bucket (now : Int)
    (probe : String → Nat → Except ClientError (Option (List String)))
    (bucket : S3Bucket) : Option BucketRecord :=
  let is_empty := s3_probe_is_empty (probe bucket.name)
  let age_days := ageDays now bucket.creationDate
  let monthly_cost : ℚ := 1 / 100
  if is_empty ∨ age_days > 90 then
    some
      { bucket_name := bucket.name
        creation_date := bucket.creationDate
        age_days := age_days
        is_empty := is_empty
        monthly_cost := monthly_cost
        recommendation := s3_generate_recommendation is_empty age_days }
  else none

/-- The `try:` block of `S3Scanner.scan_unused_buckets` (`s3_scanner.py`
lines 38-77).  `listBuckets` is the retried `list_buckets` call. -/
def s3ScanRemote (cache : Cache (List BucketRecord)) (now : Int)
    (use_cache : Bool) (cache_key : String)
    (listBuckets : Nat → Except ClientError (List S3Bucket))
    (probe : String → Nat → Except ClientError (Option (List String))) :
    List BucketRecord × Cache (List BucketRecord) :=
  match retry_aws_call listBuckets 3 with
  | (.ok buckets, _) =>
    let unused_buckets := buckets.filterMap (s3_flag_bucket now probe)
    if use_cache then
      (unused_buckets, set_cache cache now cache_key unused_buckets)
    else (unused_buckets, cache)
  | (.error _, _) => ([], cache)

/-- `S3Scanner.scan_unused_buckets` (`s3_scanner.py` lines 18-77).  The S3
scanner is pinned to region `us-east-1` (`S3Scanner.__init__`). -/
def scan_unused_buckets (cache : Cache (List BucketRecord)) (now : Int)
    (use_cache : Bool)
    (listBuckets : Nat → Except ClientError (List S3Bucket))
    (probe : String → Nat → Except ClientError (Option (List String))) :
    List BucketRecord × Cache (List BucketRecord) :=
  let cache_key := build_cache_key "us-east-1" "unused_buckets" []
  if use_cache then
    match get_cached cache now cache_key with
    | (some cached, cache') => (cached, cache')
    | (none, cache') => s3ScanRemote cache' now use_cache cache_key listBuckets probe
  else s3ScanRemote cache now use_cache cache_key listBuckets probe

/-- A raw address dictionary from `describe_addresses` (keys read via
`.get`, so `none` models an absent key). -/
structure EipAddress where
  associationId : Option String
  allocationId : Option String
  publicIp : Option String
deriving DecidableEq, Repr

/-- The flagged-resource record built by `EIPScanner._process_unassociated_eip`. -/
structure EipRecord where
  allocation_id : String
  public_ip : String
  monthly_cost : ℚ
  recommendation : String
deriving DecidableEq, Repr

/-- `EIPScanner._process_unassociated_eip` (`eip_scanner.py` lines 27-41). -/
def process_unassociated_eip (address : EipAddress) : EipRecord :=
  let monthly_cost : ℚ := 360 / 100
  { allocation_id := address.allocationId.getD "unknown"
    public_ip := address.publicIp.getD "unknown"
    monthly_cost := monthly_cost
    recommendation :=
      "RELEASE - Unassociated EIP wasting $" ++ formatMoney2 monthly_cost ++
        "/month" }

/-- `EIPScanner.scan_unassociated_eips` (`eip_scanner.py` lines 10-25):
no cache, no retry; a `ClientError` from `describe_addresses` yields `[]`. -/
def scan_unassociated_eips
    (describeAddresses : Except ClientError (List EipAddress)) :
    List EipRecord :=
  match describeAddresses with
  | .ok addresses =>
    (addresses.filter fun a => a.associationId = none).map
      process_unassociated_eip
  | .error _ => []

/-- `MultiRegionScanner.REGIONS` (`multi_region_scanner.py` lines 11-19). -/
def REGIONS : List String :=
  ["us-east-1", "us-west-1", "us-west-2", "eu-west-1", "eu-central-1",
   "ap-southeast-1", "ap-northeast-1"]

/-- The successful payload of `MultiRegionScanner._scan_region`
(`multi_region_scanner.py` lines 55-62): the four per-kind result lists. -/
structure RegionData where
  stopped_instances : List InstanceRecord
  unattached_volumes : List VolumeRecord
  old_snapshots : List SnapshotRecord
  unassociated_eips : List EipRecord
deriving DecidableEq, Repr

/-- One region's entry in the mapping returned by
`MultiRegionScanner.scan_all_regions`: either a successful
`_scan_region` payload (no `'error'` key, modelled as `error = none`), or
the substituted all-empty result carrying the error string. -/
structure RegionResult where
  stopped_instances : List InstanceRecord
  unattached_volumes : List VolumeRecord
  old_snapshots : List SnapshotRecord
  unassociated_eips : List EipRecord
  error : Option String
deriving DecidableEq, Repr

/-- `MultiRegionScanner.scan_all_regions` (`multi_region_scanner.py` lines
20-51).  `task` is `_scan_region`'s behaviour for each region: `ok` its
payload, or `error str(e)` when the task raises.  The thread pool's
completion order only affects dict insertion order, which is not observable
through key lookup, so the mapping is modelled as one entry per region.
`region_result_of` is the per-future body of the `as_completed` loop:
the task's payload on success, the substituted all-empty-plus-error result
when the task raised. -/
def region_result_of (task : String → Except String RegionData)
    (region : String) : RegionResult :=
  match task region with
  | .ok d =>
    { stopped_instances := d.stopped_instances
      unattached_volumes := d.unattached_volumes
      old_snapshots := d.old_snapshots
      unassociated_eips := d.unassociated_eips
      error := none }
  | .error e =>
    { stopped_instances := []
      unattached_volumes := []
      old_snapshots := []
      unassociated_eips := []
      error := some e }

/-- `MultiRegionScanner.scan_all_regions` (`multi_region_scanner.py` lines
20-51): one entry per region of `REGIONS`. -/
def scan_all_regions (task : String → Except String RegionData) :
    List (String × RegionResult) :=
  REGIONS.map fun region => (region, region_result_of task region)

/-- The input to `CostAnalyzer.calculate_total_waste`: for each resource
kind, the list of flagged-resource dictionaries, reduced to the one field
the analyzer reads from each (`'ebs_monthly_cost'` for stopped instances,
`'monthly_cost'` for the rest, always via `.get(_, 0)`, so `none` models a
dictionary missing the key).  A missing kind key in the outer dict is read
with `.get(_, [])` and therefore coincides with `[]`. -/
structure ScanResultsIn where
  stopped_instances : List (Option ℚ)
  unattached_volumes : List (Option ℚ)
  old_snapshots : List (Option ℚ)
  unassociated_eips : List (Option ℚ)
deriving DecidableEq, Repr

/-- The report dictionary returned by `CostAnalyzer.calculate_total_waste`
(`cost_analyzer.py` lines 52-78), flattened. -/
structure WasteReport where
  estimated_stopped_ec2 : ℚ
  estimated_unattached_ebs : ℚ
  estimated_old_snapshots : ℚ
  estimated_unassociated_eips : ℚ
  estimated_total : ℚ
  actual_ec2_monthly : ℚ
  actual_ebs_monthly : ℚ
  actual_total_monthly : ℚ
  savings_monthly : ℚ
  savings_annual : ℚ
  percentage_of_bill : ℚ
  count_stopped_instances : Nat
  count_unattached_volumes : Nat
  count_old_snapshots : Nat
  count_unassociated_eips : Nat
deriving DecidableEq, Repr

/-- Sum of one cost field over a kind's list, `sum(i.get(k, 0) for i in xs)`. -/
def sumCosts (xs : List (Option ℚ)) : ℚ :=
  (xs.map fun c => c.getD 0).sum

/-- `CostAnalyzer.calculate_total_waste` (`cost_analyzer.py` lines 9-78).
`billing` models the three Cost Explorer lookups as a unit: `ok (ec2, ebs,
total)` when all three succeed, `error e` when any of them raises — in which
case the code substitutes `0` for all three actuals and continues. -/
def calculate_total_waste (scan_results : ScanResultsIn)
    (billing : Except String (ℚ × ℚ × ℚ)) : WasteReport :=
  let ec2_waste := sumCosts scan_results.stopped_instances
  let ebs_waste := sumCosts scan_results.unattached_volumes
  let snapshot_waste := sumCosts scan_results.old_snapshots
  let eip_waste := sumCosts scan_results.unassociated_eips
  let total_estimated_waste := ec2_waste + ebs_waste + snapshot_waste + eip_waste
  let actuals :=
    match billing with
    | .ok v => v
    | .error _ => (0, 0, 0)
  let total_monthly_cost := actuals.2.2
  { estimated_stopped_ec2 := pythonRound ec2_waste 2
    estimated_unattached_ebs := pythonRound ebs_waste 2
    estimated_old_snapshots := pythonRound snapshot_waste 2
    estimated_unassociated_eips := pythonRound eip_waste 2
    estimated_total := pythonRound total_estimated_waste 2
    actual_ec2_monthly := actuals.1
    actual_ebs_monthly := actuals.2.1
    actual_total_monthly := total_monthly_cost
    savings_monthly := pythonRound total_estimated_waste 2
    savings_annual := pythonRound (total_estimated_waste * 12) 2
    percentage_of_bill :=
      pythonRound
        (if total_monthly_cost > 0 then
          total_estimated_waste / total_monthly_cost * 100
        else 0) 1
    count_stopped_instances := scan_results.stopped_instances.length
    count_unattached_volumes := scan_results.unattached_volumes.length
    count_old_snapshots := scan_results.old_snapshots.length
    count_unassociated_eips := scan_results.unassociated_eips.length }

/-! ## Helper lemmas -/

theorem lookup_filter_ne {α : Type} (l : List (String × α × Int)) (key : String) :
    (l.filter fun e => e.1 ≠ key).lookup key = none := by
  induction l with
  | nil => rfl
  | cons a t ih =>
    by_cases h : a.1 = key
    · simpa [List.filter, h] using ih
    · have hba : (key == a.1) = false := beq_eq_false_iff_ne.mpr (Ne.symm h)
      simpa [List.filter, h, List.lookup, hba] using ih

theorem pythonRound_of_int_mul (q : ℚ) (n : Nat) (m : ℤ)
    (h : q * 10 ^ n = (m : ℚ)) : pythonRound q n = q := by
  have hscale : ((10 : ℚ) ^ n) ≠ 0 := by positivity
  simp only [pythonRound, h, Int.floor_intCast, sub_self]
  norm_num
  rw [eq_comm, eq_div_iff hscale, h]

theorem pythonRound_zero (n : Nat) : pythonRound 0 n = 0 :=
  pythonRound_of_int_mul 0 n 0 (by norm_num)

theorem retry_nonretryable {α : Type} (f : Nat → Except ClientError α)
    (e : ClientError) (h0 : f 0 = .error e) (he : e.code ∉ retryableErrors)
    (k : Nat) (hk : 1 ≤ k) : retry_aws_call f k = (.error e, 1) := by
  match k, hk with
  | k + 1, _ => simp [retry_aws_call, retryFrom, h0, he]

theorem retry_always_transient_three {α : Type} (f : Nat → Except ClientError α)
    (errs : Nat → ClientError) (hf : ∀ n, f n = .error (errs n))
    (ht : ∀ n, (errs n).code ∈ retryableErrors) :
    retry_aws_call f 3 = (.error (errs 2), 3) := by
  simp [retry_aws_call, retryFrom, hf 0, hf 1, hf 2, ht 0, ht 1, ht 2]

theorem retry_transient_then_ok {α : Type} (f : Nat → Except ClientError α)
    (e : ClientError) (v : α) (h0 : f 0 = .error e)
    (ht : e.code ∈ retryableErrors) (h1 : f 1 = .ok v) :
    retry_aws_call f 3 = (.ok v, 2) := by
  simp [retry_aws_call, retryFrom, h0, h1, ht]

theorem retryFrom_always_error {α : Type} (f : Nat → Except ClientError α)
    (herr : ∀ n, ∃ e, f n = .error e) :
    ∀ (k a : Nat), ∃ e m, retryFrom f k a = (.error e, m) := by
  intro k
  induction k with
  | zero => exact fun a => ⟨_, 0, rfl⟩
  | succ k ih =>
    intro a
    obtain ⟨e, hfa⟩ := herr a
    by_cases hc : e.code ∈ retryableErrors ∧ k ≠ 0
    · obtain ⟨e', m', hrec⟩ := ih (a + 1)
      exact ⟨e', m' + 1, by simp [retryFrom, hfa, hc, hrec]⟩
    · exact ⟨e, 1, by simp [retryFrom, hfa, hc]⟩

theorem lookup_map_pair {β : Type} (l : List String) (f : String → β)
    (r : String) (h : r ∈ l) :
    (l.map fun x => (x, f x)).lookup r = some (f r) := by
  induction l with
  | nil => cases h
  | cons a t ih =>
    rcases List.mem_cons.mp h with h' | h'
    · subst h'; simp [List.lookup]
    · by_cases hr : r = a
      · subst hr; simp [List.lookup]
      · have hba : (r == a) = false := beq_eq_false_iff_ne.mpr hr
        simpa [List.lookup, hba] using ih h'

/-! ## Claim theorems -/

/-- C1: for every fingerprint `f` and payload `v`, `get` immediately after
`set(f, v)` returns `v`; and for every cached entry whose age has reached
the 5-minute TTL, `get(f)` returns absent and removes the entry. -/
theorem cache_get_after_set_and_ttl_eviction {α : Type} (cache : Cache α)
    (now : Int) (f : String) (v : α) :
    (get_cached (set_cache cache now f v) now f).1 = some v ∧
    (∀ (c : Cache α) (data : α) (ts : Int),
      c.lookup f = some (data, ts) → cache_ttl ≤ now - ts →
      (get_cached c now f).1 = none ∧
      (get_cached c now f).2.lookup f = none) := by
  constructor
  · simp [get_cached, set_cache, List.lookup, cache_ttl]
  · intro c data ts hl hexp
    have hnl : ¬(now - ts < cache_ttl) := not_lt.mpr hexp
    simp [get_cached, hl, hnl, lookup_filter_ne]
    exact fun _ _ _ _ h => Ne.symm h

/-- Witness for C1 at a concrete cache: a fresh `set` is read back, and a
300-second-old entry is evicted. -/
theorem cache_get_after_set_and_ttl_eviction_witness :
    (get_cached (set_cache ([] : Cache Nat) 0 "k" 42) 0 "k").1 = some 42 ∧
    ((get_cached [("k", (7 : Nat), -300)] 0 "k").1 = none ∧
      (get_cached [("k", (7 : Nat), -300)] 0 "k").2.lookup "k" = none) :=
  ⟨(cache_get_after_set_and_ttl_eviction ([] : Cache Nat) 0 "k" 42).1,
   (cache_get_after_set_and_ttl_eviction ([] : Cache Nat) 0 "k" 42).2
     [("k", 7, -300)] 7 (-300) rfl (by decide)⟩

/-- C2: with `max_retries = 3`, an operation that raises a transient error
on every invocation is invoked exactly 3 times and the last observed error
is surfaced; an operation that raises a non-transient error is invoked
exactly once and its error surfaces immediately. -/
theorem retry_attempt_bounds {α : Type} (f : Nat → Except ClientError α) :
    (∀ (errs : Nat → ClientError), (∀ n, f n = .error (errs n)) →
      (∀ n, (errs n).code ∈ retryableErrors) →
      retry_aws_call f 3 = (.error (errs 2), 3)) ∧
    (∀ e, f 0 = .error e → e.code ∉ retryableErrors →
      retry_aws_call f 3 = (.error e, 1)) :=
  ⟨fun errs hf ht => retry_always_transient_three f errs hf ht,
   fun e h0 he => retry_nonretryable f e h0 he 3 (by norm_num)⟩

/-- Witness for C2: a perpetual `Throttling` failure is attempted 3 times
and the third error surfaces; an `AccessDenied` failure is attempted once. -/
theorem retry_attempt_bounds_witness :
    retry_aws_call
        (fun n => (.error ⟨"Throttling", toString n⟩ : Except ClientError Nat)) 3 =
      (.error ⟨"Throttling", "2"⟩, 3) ∧
    retry_aws_call
        (fun _ => (.error ⟨"AccessDenied", "denied"⟩ : Except ClientError Nat)) 3 =
      (.error ⟨"AccessDenied", "denied"⟩, 1) :=
  ⟨(retry_attempt_bounds
      (fun n => (.error ⟨"Throttling", toString n⟩ : Except ClientError Nat))).1
      (fun n => ⟨"Throttling", toString n⟩) (fun _ => rfl)
      (fun _ => show ("Throttling" : String) ∈ retryableErrors by decide),
   (retry_attempt_bounds
      (fun _ => (.error ⟨"AccessDenied", "denied"⟩ : Except ClientError Nat))).2
      ⟨"AccessDenied", "denied"⟩ rfl (by decide)⟩

/-- C3: if one region's task raises, that region's entry in the returned
mapping is the all-empty result with the error string attached; every other
region whose task succeeds keeps its own populated result; and the mapping
has an entry for every requested region. -/
theorem scan_all_regions_isolation (task : String → Except String RegionData)
    (r₀ : String) (e : String) (h₀ : r₀ ∈ REGIONS) (he : task r₀ = .error e) :
    (scan_all_regions task).lookup r₀ = some ⟨[], [], [], [], some e⟩ ∧
    (∀ r d, r ∈ REGIONS → task r = .ok d →
      (scan_all_regions task).lookup r =
        some ⟨d.stopped_instances, d.unattached_volumes, d.old_snapshots,
          d.unassociated_eips, none⟩) ∧
    (∀ r, r ∈ REGIONS → ((scan_all_regions task).lookup r).isSome = true) := by
  refine ⟨?_, ?_, ?_⟩
  · have h1 := lookup_map_pair REGIONS (region_result_of task) r₀ h₀
    rw [scan_all_regions, h1, region_result_of, he]
  · intro r d hr hok
    have h1 := lookup_map_pair REGIONS (region_result_of task) r hr
    rw [scan_all_regions, h1, region_result_of, hok]
  · intro r hr
    rw [scan_all_regions, lookup_map_pair REGIONS (region_result_of task) r hr]
    rfl

/-- Witness for C3: with a task failing only in `us-east-1`, that region
gets the marked empty result while `eu-west-1` keeps its own. -/
theorem scan_all_regions_isolation_witness :
    (scan_all_regions fun r =>
        if r = "us-east-1" then .error "boom" else .ok ⟨[], [], [], []⟩).lookup
        "us-east-1" = some ⟨[], [], [], [], some "boom"⟩ ∧
    (scan_all_regions fun r =>
        if r = "us-east-1" then .error "boom" else .ok ⟨[], [], [], []⟩).lookup
        "eu-west-1" = some ⟨[], [], [], [], none⟩ :=
  ⟨(scan_all_regions_isolation
      (fun r => if r = "us-east-1" then .error "boom" else .ok ⟨[], [], [], []⟩)
      "us-east-1" "boom" (by decide) rfl).1,
   (scan_all_regions_isolation
      (fun r => if r = "us-east-1" then .error "boom" else .ok ⟨[], [], [], []⟩)
      "us-east-1" "boom" (by decide) rfl).2.1 "eu-west-1" ⟨[], [], [], []⟩
      (by decide) rfl⟩

/-- C5: when the top-level list call fails with a permanent (non-retryable)
error, each scanner's scan returns an empty sequence instead of raising.
Stated for the EBS, EC2 and S3 scanners, at any cache state that does not
short-circuit the remote call (cache miss; `use_cache` arbitrary). -/
theorem scanners_soft_fail_on_permanent_error (e : ClientError)
    (he : e.code ∉ retryableErrors) :
    (∀ (region : String) (cache : Cache (List VolumeRecord)) (now : Int)
       (use_cache : Bool)
       (listPages : Nat → Except ClientError (List (List EbsVolume))),
       listPages 0 = .error e →
       (get_cached cache now (build_cache_key region "unattached_volumes" [])).1 = none →
       (scan_unattached_volumes region cache now use_cache listPages).1 = []) ∧
    (∀ (region : String) (cache : Cache (List InstanceRecord)) (now : Int)
       (use_cache : Bool)
       (paginate : Nat → Except ClientError (List (List (List Ec2Instance))))
       (vol : String → Except ClientError Ec2VolumeInfo),
       paginate 0 = .error e →
       (get_cached cache now (build_cache_key region "stopped_instances" [])).1 = none →
       (scan_stopped_instances region cache now use_cache paginate vol).1 = []) ∧
    (∀ (cache : Cache (List BucketRecord)) (now : Int) (use_cache : Bool)
       (listBuckets : Nat → Except ClientError (List S3Bucket))
       (probe : String → Nat → Except ClientError (Option (List String))),
       listBuckets 0 = .error e →
       (get_cached cache now (build_cache_key "us-east-1" "unused_buckets" [])).1 = none →
       (scan_unused_buckets cache now use_cache listBuckets probe).1 = []) := by
  refine ⟨?_, ?_, ?_⟩
  · intro region cache now use_cache listPages h0 hmiss
    have hr := retry_nonretryable listPages e h0 he 3 (by norm_num)
    rcases hgc : get_cached cache now (build_cache_key region "unattached_volumes" [])
      with ⟨o, c'⟩
    rw [hgc] at hmiss
    simp only at hmiss
    subst hmiss
    cases use_cache <;> simp [scan_unattached_volumes, hgc, ebsScanRemote, hr]
  · intro region cache now use_cache paginate vol h0 hmiss
    rcases hgc : get_cached cache now (build_cache_key region "stopped_instances" [])
      with ⟨o, c'⟩
    rw [hgc] at hmiss
    simp only at hmiss
    subst hmiss
    cases use_cache <;> simp [scan_stopped_instances, hgc, ec2ScanRemote, h0]
  · intro cache now use_cache listBuckets probe h0 hmiss
    have hr := retry_nonretryable listBuckets e h0 he 3 (by norm_num)
    rcases hgc : get_cached cache now (build_cache_key "us-east-1" "unused_buckets" [])
      with ⟨o, c'⟩
    rw [hgc] at hmiss
    simp only at hmiss
    subst hmiss
    cases use_cache <;> simp [scan_unused_buckets, hgc, s3ScanRemote, hr]

/-- Witness for C5: an `UnauthorizedOperation` failure yields `[]` from all
three scanners on an empty cache. -/
theorem scanners_soft_fail_on_permanent_error_witness :
    (scan_unattached_volumes "eu-west-1" [] 0 true
      (fun _ => .error ⟨"UnauthorizedOperation", "no"⟩)).1 = [] ∧
    (scan_stopped_instances "eu-west-1" [] 0 true
      (fun _ => .error ⟨"UnauthorizedOperation", "no"⟩)
      (fun _ => .ok ⟨"gp2", 8⟩)).1 = [] ∧
    (scan_unused_buckets [] 0 true
      (fun _ => .error ⟨"UnauthorizedOperation", "no"⟩)
      (fun _ _ => .ok none)).1 = [] :=
  ⟨(scanners_soft_fail_on_permanent_error ⟨"UnauthorizedOperation", "no"⟩
      (by decide)).1 "eu-west-1" [] 0 true _ rfl rfl,
   (scanners_soft_fail_on_permanent_error ⟨"UnauthorizedOperation", "no"⟩
      (by decide)).2.1 "eu-west-1" [] 0 true _ _ rfl rfl,
   (scanners_soft_fail_on_permanent_error ⟨"UnauthorizedOperation", "no"⟩
      (by decide)).2.2 [] 0 true _ _ rfl rfl⟩

/-- C7: in the old-snapshot scanner's source-volume lookup, an
`InvalidVolume.NotFound` error (after retries) is a normal negative result —
the snapshot is still reported, with `volume_exists = false` — while any
other remote error propagates out of `_check_volume_exists`. -/
theorem check_volume_not_found_asymmetry
    (describeVols : String → Nat → Except ClientError Unit) (vid : String)
    (hv : vid ≠ "unknown") :
    (∀ e n, retry_aws_call (describeVols vid) 3 = (.error e, n) →
      e.code = "InvalidVolume.NotFound" →
      check_volume_exists describeVols vid = .ok false) ∧
    (∀ e n, retry_aws_call (describeVols vid) 3 = (.error e, n) →
      e.code ≠ "InvalidVolume.NotFound" →
      check_volume_exists describeVols vid = .error e) ∧
    (∀ (now threshold : Int) (snap : Snapshot), snap.volumeId = vid →
      ¬(ageDays now snap.startTime < threshold) →
      ∀ e n, retry_aws_call (describeVols vid) 3 = (.error e, n) →
      e.code = "InvalidVolume.NotFound" →
      ∃ rec, process_snapshots now describeVols threshold snap = .ok (some rec) ∧
        rec.volume_exists = false) := by
  have hchk : ∀ e n, retry_aws_call (describeVols vid) 3 = (.error e, n) →
      check_volume_exists describeVols vid =
        (if e.code = "InvalidVolume.NotFound" then .ok false else .error e) := by
    intro e n hr
    have hp : retryFrom (describeVols vid) 3 0 = (.error e, n) := hr
    simp [check_volume_exists, hv, retry_aws_call, hp]
  refine ⟨?_, ?_, ?_⟩
  · intro e n hr hnf
    rw [hchk e n hr, if_pos hnf]
  · intro e n hr hnf
    rw [hchk e n hr, if_neg hnf]
  · intro now threshold snap hvid hage e n hr hnf
    have h1 : check_volume_exists describeVols snap.volumeId = .ok false := by
      rw [hvid, hchk e n hr, if_pos hnf]
    refine ⟨{ snapshot_id := snap.snapshotId
              volume_id := snap.volumeId
              start_time := snap.startTime
              size_gb := snap.volumeSize
              age_days := ageDays now snap.startTime
              monthly_cost := pythonRound ((snap.volumeSize : ℚ) * (5 / 100)) 2
              volume_exists := false
              recommendation := snapshot_generate_recommendation
                (ageDays now snap.startTime)
                (pythonRound ((snap.volumeSize : ℚ) * (5 / 100)) 2) false },
            ?_, rfl⟩
    simp [process_snapshots, hage, h1]

/-- Witness for C7: a not-found lookup yields `ok false` (and the snapshot
record carries `volume_exists = false`); an `AccessDenied` lookup
propagates the error. -/
theorem check_volume_not_found_asymmetry_witness :
    check_volume_exists (fun _ _ => .error ⟨"InvalidVolume.NotFound", "nf"⟩)
      "vol-1" = .ok false ∧
    check_volume_exists (fun _ _ => .error ⟨"AccessDenied", "no"⟩) "vol-1" =
      .error ⟨"AccessDenied", "no"⟩ ∧
    (∃ rec, process_snapshots 86400000
        (fun _ _ => .error ⟨"InvalidVolume.NotFound", "nf"⟩) 90
        ⟨"snap-1", "vol-1", 20, 0⟩ = .ok (some rec) ∧
      rec.volume_exists = false) :=
  ⟨(check_volume_not_found_asymmetry
      (fun _ _ => .error ⟨"InvalidVolume.NotFound", "nf"⟩) "vol-1"
      (by decide)).1 ⟨"InvalidVolume.NotFound", "nf"⟩ 1 rfl rfl,
   (check_volume_not_found_asymmetry
      (fun _ _ => .error ⟨"AccessDenied", "no"⟩) "vol-1" (by decide)).2.1
      ⟨"AccessDenied", "no"⟩ 1 rfl (by decide),
   (check_volume_not_found_asymmetry
      (fun _ _ => .error ⟨"InvalidVolume.NotFound", "nf"⟩) "vol-1"
      (by decide)).2.2 86400000 90 ⟨"snap-1", "vol-1", 20, 0⟩ rfl (by decide)
      ⟨"InvalidVolume.NotFound", "nf"⟩ 1 rfl rfl⟩

theorem ebs_scan_mem (region : String) (cache : Cache (List VolumeRecord))
    (now : Int) (use_cache : Bool)
    (listPages : Nat → Except ClientError (List (List EbsVolume)))
    (rec : VolumeRecord)
    (hmiss : (get_cached cache now (build_cache_key region "unattached_volumes" [])).1 = none)
    (h : rec ∈ (scan_unattached_volumes region cache now use_cache listPages).1) :
    ∃ v : EbsVolume, v.state = some "available" ∧
      rec = process_unattached_volume now v := by
  rcases hgc : get_cached cache now (build_cache_key region "unattached_volumes" [])
    with ⟨o, c'⟩
  rw [hgc] at hmiss
  simp only at hmiss
  subst hmiss
  have hrem : rec ∈ (ebsScanRemote c' now use_cache
      (build_cache_key region "unattached_volumes" []) listPages).1 ∨
      rec ∈ (ebsScanRemote cache now use_cache
      (build_cache_key region "unattached_volumes" []) listPages).1 := by
    cases use_cache with
    | false =>
      right
      simpa [scan_unattached_volumes] using h
    | true =>
      left
      simpa [scan_unattached_volumes, hgc] using h
  have hmem : ∀ (c : Cache (List VolumeRecord)),
      rec ∈ (ebsScanRemote c now use_cache
        (build_cache_key region "unattached_volumes" []) listPages).1 →
      ∃ v : EbsVolume, v.state = some "available" ∧
        rec = process_unattached_volume now v := by
    intro c hc
    rcases hrt : retry_aws_call listPages 3 with ⟨res, m⟩
    cases res with
    | error e =>
      rw [ebsScanRemote, hrt] at hc
      simp at hc
    | ok pages =>
      rw [ebsScanRemote, hrt] at hc
      have hc' : rec ∈ (pages.foldr (· ++ ·) []).filterMap fun volume =>
          if volume.state = some "available" then
            some (process_unattached_volume now volume)
          else none := by
        cases use_cache <;> simpa using hc
      obtain ⟨v, _, hfv⟩ := List.mem_filterMap.mp hc'
      by_cases hs : v.state = some "available"
      · rw [if_pos hs] at hfv
        exact ⟨v, hs, (Option.some_injective _ hfv).symm⟩
      · rw [if_neg hs] at hfv
        cases hfv
  rcases hrem with hrem | hrem
  · exact hmem c' hrem
  · exact hmem cache hrem

/-- C9: every unattached-volume record carries
`monthly_cost = round(size_gb * price_per_gb(volume_type), 2)` with the
gp2 rate `0.10` as the default for unknown types; in particular a 10 GB
`gp3` volume costs `0.80` per month, a 10 GB `gp2` volume `1.00`, and a
10 GB volume of an unrecognized type `1.00`. -/
theorem volume_record_monthly_cost :
    (∀ (size : Nat) (t : String), ebsPricing.lookup t = none →
      calculate_monthly_cost size t = calculate_monthly_cost size "gp2") ∧
    (∀ (now : Int) (v : EbsVolume),
      (process_unattached_volume now v).monthly_cost =
        calculate_monthly_cost (v.size.getD 0) (v.volumeType.getD "gp2")) ∧
    (∀ (region : String) (cache : Cache (List VolumeRecord)) (now : Int)
       (use_cache : Bool)
       (listPages : Nat → Except ClientError (List (List EbsVolume)))
       (rec : VolumeRecord),
       (get_cached cache now (build_cache_key region "unattached_volumes" [])).1 = none →
       rec ∈ (scan_unattached_volumes region cache now use_cache listPages).1 →
       rec.monthly_cost = calculate_monthly_cost rec.size rec.volume_type) ∧
    calculate_monthly_cost 10 "gp3" = 80 / 100 ∧
    calculate_monthly_cost 10 "gp2" = 1 ∧
    calculate_monthly_cost 10 "unrecognized-type" = 1 := by
  refine ⟨?_, ?_, ?_, ?_, ?_, ?_⟩
  · intro size t hnone
    simp only [calculate_monthly_cost, hnone]
    rfl
  · intro now v
    rfl
  · intro region cache now use_cache listPages rec hmiss hmem
    obtain ⟨v, _, hrec⟩ :=
      ebs_scan_mem region cache now use_cache listPages rec hmiss hmem
    subst hrec
    rfl
  · calc calculate_monthly_cost 10 "gp3"
        = pythonRound ((10 : ℚ) * (8 / 100)) 2 := rfl
      _ = (10 : ℚ) * (8 / 100) :=
        pythonRound_of_int_mul _ 2 80 (by norm_num)
      _ = 80 / 100 := by norm_num
  · calc calculate_monthly_cost 10 "gp2"
        = pythonRound ((10 : ℚ) * (10 / 100)) 2 := rfl
      _ = (10 : ℚ) * (10 / 100) :=
        pythonRound_of_int_mul _ 2 100 (by norm_num)
      _ = 1 := by norm_num
  · calc calculate_monthly_cost 10 "unrecognized-type"
        = pythonRound ((10 : ℚ) * (10 / 100)) 2 := rfl
      _ = (10 : ℚ) * (10 / 100) :=
        pythonRound_of_int_mul _ 2 100 (by norm_num)
      _ = 1 := by norm_num

/-- Witness for C9: the record scanned from a concrete 10 GB `gp3` volume
satisfies the cost equation, and an unknown type prices like `gp2`. -/
theorem volume_record_monthly_cost_witness :
    calculate_monthly_cost 5 "mystery" = calculate_monthly_cost 5 "gp2" ∧
    (process_unattached_volume 0
        ⟨some "vol-1", some 10, some "gp3", some "eu-west-1a", some 0,
          some "available"⟩).monthly_cost =
      calculate_monthly_cost
        (process_unattached_volume 0
          ⟨some "vol-1", some 10, some "gp3", some "eu-west-1a", some 0,
            some "available"⟩).size
        (process_unattached_volume 0
          ⟨some "vol-1", some 10, some "gp3", some "eu-west-1a", some 0,
            some "available"⟩).volume_type :=
  ⟨volume_record_monthly_cost.1 5 "mystery" rfl,
   volume_record_monthly_cost.2.2.1 "eu-west-1" [] 0 false
     (fun _ => .ok [[⟨some "vol-1", some 10, some "gp3", some "eu-west-1a",
       some 0, some "available"⟩]])
     (process_unattached_volume 0
       ⟨some "vol-1", some 10, some "gp3", some "eu-west-1a", some 0,
         some "available"⟩)
     rfl
     (List.mem_singleton.mpr rfl)⟩

/-- C10: the savings percentage never divides by zero — whenever the actual
total monthly cost is not positive (in particular when every billing lookup
failed and was substituted with zero), `percentage_of_bill` is `0`, and the
report (a total function into `WasteReport`) is still fully populated. -/
theorem waste_report_percentage_no_div_by_zero (scan_results : ScanResultsIn)
    (billing : Except String (ℚ × ℚ × ℚ)) :
    ((calculate_total_waste scan_results billing).actual_total_monthly ≤ 0 →
      (calculate_total_waste scan_results billing).percentage_of_bill = 0) ∧
    (∀ e, billing = .error e →
      (calculate_total_waste scan_results billing).actual_ec2_monthly = 0 ∧
      (calculate_total_waste scan_results billing).actual_ebs_monthly = 0 ∧
      (calculate_total_waste scan_results billing).actual_total_monthly = 0 ∧
      (calculate_total_waste scan_results billing).percentage_of_bill = 0) := by
  constructor
  · intro h
    have hnl : ¬((match billing with
        | .ok v => v
        | .error _ => ((0 : ℚ), (0 : ℚ), (0 : ℚ))).2.2 > 0) := not_lt.mpr h
    simp only [calculate_total_waste] at h ⊢
    rw [if_neg hnl]
    exact pythonRound_zero 1
  · intro e he
    subst he
    exact ⟨rfl, rfl, rfl, by
      simp only [calculate_total_waste]
      norm_num
      exact pythonRound_zero 1⟩

/-- Witness for C10: with all billing lookups failed, the report carries
zero actuals and a zero percentage. -/
theorem waste_report_percentage_no_div_by_zero_witness :
    (calculate_total_waste ⟨[some 5], [], [], []⟩
      (.error "ce down")).percentage_of_bill = 0 ∧
    (calculate_total_waste ⟨[some 5], [], [], []⟩
      (.error "ce down")).actual_total_monthly = 0 :=
  ⟨(waste_report_percentage_no_div_by_zero ⟨[some 5], [], [], []⟩
      (.error "ce down")).1
      (le_of_eq ((waste_report_percentage_no_div_by_zero ⟨[some 5], [], [], []⟩
        (.error "ce down")).2 "ce down" rfl).2.2.1),
   ((waste_report_percentage_no_div_by_zero ⟨[some 5], [], [], []⟩
      (.error "ce down")).2 "ce down" rfl).2.2.1⟩

/-- Counterexample to C8 as stated: a non-empty bucket aged exactly 90 days
(creation at epoch, scan at `90 * 86400` seconds) is NOT flagged — the code
requires `age_days > 90`, strictly — although the claim ("age at least 90")
would flag it. -/
theorem s3_age_ninety_not_flagged :
    ageDays (90 * 86400) 0 = 90 ∧
    s3_probe_is_empty (fun _ => .ok (some ["k"])) = false ∧
    (scan_unused_buckets [] (90 * 86400) false
      (fun _ => .ok [⟨"bucket-90", 0⟩])
      (fun _ _ => .ok (some ["k"]))).1 = [] :=
  ⟨by decide, rfl, rfl⟩

/-- C8 (amended): a bucket is flagged exactly when it is empty OR strictly
older than 90 days; a failing emptiness probe means "not empty" (fail safe);
and on a cache miss the scan reports exactly the flagged buckets. -/
theorem s3_flag_condition :
    (∀ (now : Int)
       (probe : String → Nat → Except ClientError (Option (List String)))
       (b : S3Bucket),
      (s3_flag_bucket now probe b).isSome = true ↔
        (s3_probe_is_empty (probe b.name) = true ∨
          ageDays now b.creationDate > 90)) ∧
    (∀ (p : Nat → Except ClientError (Option (List String))),
      (∀ n, ∃ e, p n = .error e) → s3_probe_is_empty p = false) ∧
    (∀ (cache : Cache (List BucketRecord)) (now : Int) (use_cache : Bool)
       (listBuckets : Nat → Except ClientError (List S3Bucket))
       (probe : String → Nat → Except ClientError (Option (List String)))
       (bs : List S3Bucket) (n : Nat),
      retry_aws_call listBuckets 3 = (.ok bs, n) →
      (get_cached cache now (build_cache_key "us-east-1" "unused_buckets" [])).1 = none →
      (scan_unused_buckets cache now use_cache listBuckets probe).1 =
        bs.filterMap (s3_flag_bucket now probe)) := by
  refine ⟨?_, ?_, ?_⟩
  · intro now probe b
    by_cases hc : s3_probe_is_empty (probe b.name) = true ∨
        ageDays now b.creationDate > 90
    · simp [s3_flag_bucket, if_pos hc, hc]
    · simp [s3_flag_bucket, if_neg hc, hc]
  · intro p hp
    obtain ⟨e, m, hr⟩ := retryFrom_always_error p hp 3 0
    simp [s3_probe_is_empty, retry_aws_call, hr]
  · intro cache now use_cache listBuckets probe bs n hrt hmiss
    rcases hgc : get_cached cache now (build_cache_key "us-east-1" "unused_buckets" [])
      with ⟨o, c'⟩
    rw [hgc] at hmiss
    simp only at hmiss
    subst hmiss
    cases use_cache <;> simp [scan_unused_buckets, hgc, s3ScanRemote, hrt]

/-- Witness for C8 (amended): an always-failing probe yields "not empty",
and a concrete scan of one old non-empty bucket reports exactly the flagged
list. -/
theorem s3_flag_condition_witness :
    s3_probe_is_empty (fun _ => .error ⟨"AccessDenied", "x"⟩) = false ∧
    (scan_unused_buckets [] (91 * 86400) true
        (fun _ => .ok [⟨"b", 0⟩]) (fun _ _ => .ok (some ["k"]))).1 =
      [⟨"b", 0⟩].filterMap
        (s3_flag_bucket (91 * 86400) (fun _ _ => .ok (some ["k"]))) :=
  ⟨s3_flag_condition.2.1 (fun _ => .error ⟨"AccessDenied", "x"⟩)
      (fun _ => ⟨⟨"AccessDenied", "x"⟩, rfl⟩),
   s3_flag_condition.2.2 [] (91 * 86400) true (fun _ => .ok [⟨"b", 0⟩])
      (fun _ _ => .ok (some ["k"])) [⟨"b", 0⟩] 1 rfl rfl⟩

/-- Counterexample to C6 as stated: a `Throttling` (transient) error on the
EC2 scanner's pagination is NOT retried — the scan returns `[]` — even
though applying the retry policy to the very same call would have succeeded
on the second invocation. -/
theorem ec2_pagination_not_retried :
    (scan_stopped_instances "eu-west-1" [] 0 false
      (fun n => if n = 0 then .error ⟨"Throttling", "t"⟩
        else .ok [[[⟨"i-1", "t2.micro", 0, []⟩]]])
      (fun _ => .ok ⟨"gp2", 8⟩)).1 = [] ∧
    retry_aws_call
      ((fun n => if n = 0 then .error ⟨"Throttling", "t"⟩
        else .ok [[[⟨"i-1", "t2.micro", 0, []⟩]]]) :
        Nat → Except ClientError (List (List (List Ec2Instance)))) 3 =
      (.ok [[[⟨"i-1", "t2.micro", 0, []⟩]]], 2) :=
  ⟨rfl, rfl⟩

/-- C6 (amended): the EBS scanner wraps its entire pagination in one retry
call, so a transient first failure is absorbed before the scanner sees it;
the EC2 scanner issues its pagination without the retry wrapper — its result
depends only on the first invocation, and any pagination error (transient
included) reaches the scanner's top-level handler, which returns `[]`. -/
theorem pagination_retry_wrapping :
    (∀ (region : String) (cache : Cache (List VolumeRecord)) (now : Int)
       (listPages : Nat → Except ClientError (List (List EbsVolume)))
       (e : ClientError) (pages : List (List EbsVolume)),
      listPages 0 = .error e → e.code ∈ retryableErrors →
      listPages 1 = .ok pages →
      scan_unattached_volumes region cache now false listPages =
        scan_unattached_volumes region cache now false (fun _ => .ok pages)) ∧
    (∀ (region : String) (cache : Cache (List InstanceRecord)) (now : Int)
       (use_cache : Bool)
       (f g : Nat → Except ClientError (List (List (List Ec2Instance))))
       (vol : String → Except ClientError Ec2VolumeInfo),
      f 0 = g 0 →
      scan_stopped_instances region cache now use_cache f vol =
        scan_stopped_instances region cache now use_cache g vol) ∧
    (∀ (region : String) (cache : Cache (List InstanceRecord)) (now : Int)
       (use_cache : Bool)
       (paginate : Nat → Except ClientError (List (List (List Ec2Instance))))
       (vol : String → Except ClientError Ec2VolumeInfo) (e : ClientError),
      paginate 0 = .error e →
      (get_cached cache now (build_cache_key region "stopped_instances" [])).1 = none →
      (scan_stopped_instances region cache now use_cache paginate vol).1 = []) := by
  refine ⟨?_, ?_, ?_⟩
  · intro region cache now listPages e pages h0 ht h1
    have hr := retry_transient_then_ok listPages e pages h0 ht h1
    have hr' : retry_aws_call (fun _ => (.ok pages :
        Except ClientError (List (List EbsVolume)))) 3 = (.ok pages, 1) := rfl
    simp [scan_unattached_volumes, ebsScanRemote, hr, hr']
  · intro region cache now use_cache f g vol h
    cases use_cache <;>
      simp only [scan_stopped_instances, ec2ScanRemote, h]
  · intro region cache now use_cache paginate vol e h0 hmiss
    rcases hgc : get_cached cache now (build_cache_key region "stopped_instances" [])
      with ⟨o, c'⟩
    rw [hgc] at hmiss
    simp only at hmiss
    subst hmiss
    cases use_cache <;> simp [scan_stopped_instances, hgc, ec2ScanRemote, h0]

/-- Witness for C6 (amended): a transient-then-successful EBS pagination
equals the immediately-successful scan; the EC2 scan of two oracles agreeing
on invocation 0 coincide; a throttled EC2 pagination yields `[]`. -/
theorem pagination_retry_wrapping_witness :
    scan_unattached_volumes "eu-west-1" [] 0 false
        (fun n => if n = 0 then .error ⟨"Throttling", "t"⟩ else .ok [[]]) =
      scan_unattached_volumes "eu-west-1" [] 0 false (fun _ => .ok [[]]) ∧
    scan_stopped_instances "eu-west-1" [] 0 false
        (fun n => if n = 0 then .error ⟨"Throttling", "t"⟩ else .ok [])
        (fun _ => .ok ⟨"gp2", 8⟩) =
      scan_stopped_instances "eu-west-1" [] 0 false
        (fun _ => .error ⟨"Throttling", "t"⟩) (fun _ => .ok ⟨"gp2", 8⟩) ∧
    (scan_stopped_instances "eu-west-1" [] 0 true
        (fun _ => .error ⟨"Throttling", "t"⟩) (fun _ => .ok ⟨"gp2", 8⟩)).1 = [] :=
  ⟨pagination_retry_wrapping.1 "eu-west-1" [] 0
      (fun n => if n = 0 then .error ⟨"Throttling", "t"⟩ else .ok [[]])
      ⟨"Throttling", "t"⟩ [[]] rfl (by decide) rfl,
   pagination_retry_wrapping.2.1 "eu-west-1" [] 0 false
      (fun n => if n = 0 then .error ⟨"Throttling", "t"⟩ else .ok [])
      (fun _ => .error ⟨"Throttling", "t"⟩) (fun _ => .ok ⟨"gp2", 8⟩) rfl,
   pagination_retry_wrapping.2.2 "eu-west-1" [] 0 true
      (fun _ => .error ⟨"Throttling", "t"⟩) (fun _ => .ok ⟨"gp2", 8⟩)
      ⟨"Throttling", "t"⟩ rfl rfl⟩

theorem build_cache_key_parts (region kind : String)
    (params : List (String × String)) :
    build_cache_key region kind params =
      String.intercalate ":"
        ([region, kind] ++ flattenPairs (params.mergeSort fun a b => a.1 ≤ b.1)) :=
  rfl

theorem intercalate_go_data (sep : String) :
    ∀ (as : List String) (acc : String),
    (String.intercalate.go acc sep as).data =
      acc.data ++ (as.map fun s => sep.data ++ s.data).flatten := by
  intro as
  induction as with
  | nil => intro acc; simp [String.intercalate.go]
  | cons b bs ih =>
    intro acc
    rw [String.intercalate.go, ih]
    simp [String.data_append]

theorem intercalate_cons_eq (sep : List Char) (x : List Char) :
    ∀ xs : List (List Char),
    List.intercalate sep (x :: xs) = x ++ (xs.map fun s => sep ++ s).flatten := by
  intro xs
  induction xs generalizing x with
  | nil => simp [List.intercalate]
  | cons y ys ih =>
    have h1 : List.intercalate sep (x :: y :: ys) =
        x ++ sep ++ List.intercalate sep (y :: ys) := by
      simp [List.intercalate]
    rw [h1, ih y]
    simp

theorem intercalate_data (sep : String) (l : List String) :
    (String.intercalate sep l).data =
      List.intercalate sep.data (l.map String.data) := by
  cases l with
  | nil => simp [String.intercalate, List.intercalate]
  | cons a as =>
    rw [String.intercalate, intercalate_go_data, List.map_cons,
      intercalate_cons_eq, List.map_map]
    rfl

theorem intercalate_colon_inj (l₁ l₂ : List String)
    (h₁ : ∀ s ∈ l₁, colonFree s) (h₂ : ∀ s ∈ l₂, colonFree s)
    (hne₁ : l₁ ≠ []) (hne₂ : l₂ ≠ [])
    (h : String.intercalate ":" l₁ = String.intercalate ":" l₂) :
    l₁ = l₂ := by
  have hd : List.intercalate [':'] (l₁.map String.data) =
      List.intercalate [':'] (l₂.map String.data) := by
    have e₁ := intercalate_data ":" l₁
    have e₂ := intercalate_data ":" l₂
    rw [h] at e₁
    rw [← e₁, e₂]
  have hs₁ := List.splitOn_intercalate (l₁.map String.data) ':'
    (by intro l hl
        obtain ⟨s, hs, rfl⟩ := List.mem_map.mp hl
        exact h₁ s hs)
    (by simpa using hne₁)
  have hs₂ := List.splitOn_intercalate (l₂.map String.data) ':'
    (by intro l hl
        obtain ⟨s, hs, rfl⟩ := List.mem_map.mp hl
        exact h₂ s hs)
    (by simpa using hne₂)
  have hmap : l₁.map String.data = l₂.map String.data := by
    rw [← hs₁, ← hs₂, hd]
  exact List.map_injective_iff.mpr (fun a b hab => String.toList_inj.mp hab) hmap

theorem flattenPairs_inj : ∀ {ps qs : List (String × String)},
    flattenPairs ps = flattenPairs qs → ps = qs := by
  intro ps
  induction ps with
  | nil =>
    intro qs h
    cases qs with
    | nil => rfl
    | cons b t => exact absurd h (by simp [flattenPairs])
  | cons a t ih =>
    intro qs h
    cases qs with
    | nil => exact absurd h (by simp [flattenPairs])
    | cons b t' =>
      simp only [flattenPairs, List.foldr] at h
      injection h with h1 h4
      injection h4 with h2 h3
      have hab : a = b := Prod.ext h1 h2
      rw [hab, ih h3]

theorem mem_flattenPairs {s : String} :
    ∀ {ps : List (String × String)}, s ∈ flattenPairs ps →
    ∃ p ∈ ps, s = p.1 ∨ s = p.2 := by
  intro ps
  induction ps with
  | nil => intro h; cases h
  | cons a t ih =>
    intro h
    simp only [flattenPairs, List.foldr] at h
    rcases List.mem_cons.mp h with rfl | h'
    · exact ⟨a, List.mem_cons_self a t, Or.inl rfl⟩
    · rcases List.mem_cons.mp h' with rfl | h''
      · exact ⟨a, List.mem_cons_self a t, Or.inr rfl⟩
      · obtain ⟨p, hp, hs⟩ := ih h''
        exact ⟨p, List.mem_cons_of_mem a hp, hs⟩

theorem sorted_nodupkeys_perm_eq :
    ∀ {l l' : List (String × String)}, l.Perm l' →
    (l.map Prod.fst).Nodup →
    l.Pairwise (fun a b => a.1 ≤ b.1) →
    l'.Pairwise (fun a b => a.1 ≤ b.1) →
    l = l' := by
  intro l
  induction l with
  | nil => intro l' hp _ _ _; exact hp.nil_eq
  | cons a t ih =>
    intro l' hp hnd hs hs'
    cases l' with
    | nil => exact hp.eq_nil
    | cons b t' =>
      rcases eq_or_ne a b with rfl | hab
      · have hnd' : (t.map Prod.fst).Nodup :=
          (List.nodup_cons.mp (by simpa using hnd)).2
        exact congrArg (a :: ·) (ih hp.cons_inv hnd' hs.of_cons hs'.of_cons)
      · have hbmem : b ∈ a :: t := hp.symm.subset (List.mem_cons_self b t')
        have hamem : a ∈ b :: t' := hp.subset (List.mem_cons_self a t)
        have hb_t : b ∈ t := by
          rcases List.mem_cons.mp hbmem with h | h
          · exact absurd h.symm hab
          · exact h
        have ha_t' : a ∈ t' := by
          rcases List.mem_cons.mp hamem with h | h
          · exact absurd h hab
          · exact h
        have h1 : a.1 ≤ b.1 := List.rel_of_pairwise_cons hs hb_t
        have h2 : b.1 ≤ a.1 := List.rel_of_pairwise_cons hs' ha_t'
        have hkey : a.1 = b.1 := le_antisymm h1 h2
        exact absurd
          (List.inj_on_of_nodup_map hnd (List.mem_cons_self a t) hbmem hkey)
          hab

theorem mergeSort_key_sorted (ps : List (String × String)) :
    (ps.mergeSort fun a b => a.1 ≤ b.1).Pairwise (fun a b => a.1 ≤ b.1) := by
  have h := @List.sorted_mergeSort (String × String)
    (fun a b => decide (a.1 ≤ b.1))
    (fun a b c hab hbc => by
      simp only [decide_eq_true_eq] at hab hbc ⊢
      exact le_trans hab hbc)
    (fun a b => by simpa using le_total a.1 b.1)
    ps
  exact h.imp fun hab => of_decide_eq_true hab

theorem mergeSort_perm_nodup_eq (ps qs : List (String × String))
    (hperm : ps.Perm qs) (hnd : (ps.map Prod.fst).Nodup) :
    ps.mergeSort (fun a b => a.1 ≤ b.1) = qs.mergeSort (fun a b => a.1 ≤ b.1) := by
  apply sorted_nodupkeys_perm_eq
  · exact (List.mergeSort_perm ps _).trans
      (hperm.trans (List.mergeSort_perm qs _).symm)
  · exact (((List.mergeSort_perm ps _).map Prod.fst).nodup_iff).mpr hnd
  · exact mergeSort_key_sorted ps
  · exact mergeSort_key_sorted qs

/-- Counterexample to C4 as stated: the `':'`-joined fingerprint is not
injective without restrictions — a region containing the separator collides
with a differently-cut (region, kind) pair, so "fingerprints are distinct
whenever the region differs" fails. -/
theorem fingerprint_colon_collision :
    build_cache_key "r:k" "x" [] = build_cache_key "r" "k:x" [] ∧
    ("r:k" : String) ≠ "r" := by
  constructor
  · rw [build_cache_key_parts, build_cache_key_parts]
    simp only [List.mergeSort_nil]
    rfl
  · decide

/-- C4 (amended): for colon-free regions, kinds, parameter names and values,
with distinct parameter names, two fingerprints are equal exactly when the
regions agree, the kinds agree and the parameter maps agree up to ordering.
(The left-to-right direction gives distinctness, the right-to-left direction
gives invariance under parameter ordering.) -/
theorem fingerprint_eq_iff (region kind region' kind' : String)
    (params params' : List (String × String))
    (hreg : colonFree region) (hknd : colonFree kind)
    (hreg' : colonFree region') (hknd' : colonFree kind')
    (hp : ∀ p ∈ params, colonFree p.1 ∧ colonFree p.2)
    (hp' : ∀ p ∈ params', colonFree p.1 ∧ colonFree p.2)
    (hnd : (params.map Prod.fst).Nodup)
    (hnd' : (params'.map Prod.fst).Nodup) :
    build_cache_key region kind params = build_cache_key region' kind' params' ↔
      (region = region' ∧ kind = kind' ∧ params.Perm params') := by
  constructor
  · intro h
    rw [build_cache_key_parts, build_cache_key_parts] at h
    have hcf : ∀ (r k : String) (ps : List (String × String)),
        colonFree r → colonFree k → (∀ p ∈ ps, colonFree p.1 ∧ colonFree p.2) →
        ∀ s ∈ [r, k] ++ flattenPairs (ps.mergeSort fun a b => a.1 ≤ b.1),
        colonFree s := by
      intro r k ps hr hk hps s hs
      rcases List.mem_append.mp hs with hs | hs
      · rcases List.mem_cons.mp hs with rfl | hs
        · exact hr
        · rcases List.mem_cons.mp hs with rfl | hs
          · exact hk
          · cases hs
      · obtain ⟨p, hpmem, hor⟩ := mem_flattenPairs hs
        have hpp : p ∈ ps := List.mem_mergeSort.mp hpmem
        rcases hor with rfl | rfl
        · exact (hps p hpp).1
        · exact (hps p hpp).2
    have hl := intercalate_colon_inj _ _
      (hcf region kind params hreg hknd hp)
      (hcf region' kind' params' hreg' hknd' hp')
      (by simp) (by simp) h
    have hl' : region :: kind :: flattenPairs (params.mergeSort fun a b => a.1 ≤ b.1) =
        region' :: kind' :: flattenPairs (params'.mergeSort fun a b => a.1 ≤ b.1) := by
      simpa using hl
    injection hl' with e1 rest1
    injection rest1 with e2 rest2
    refine ⟨e1, e2, ?_⟩
    have hsort := flattenPairs_inj rest2
    exact (List.mergeSort_perm params _).symm.trans
      (hsort ▸ (List.mergeSort_perm params' _))
  · rintro ⟨rfl, rfl, hperm⟩
    rw [build_cache_key_parts, build_cache_key_parts,
      mergeSort_perm_nodup_eq params params' hperm hnd]

/-- Witness for C4 (amended): swapping the two parameters of a concrete
fingerprint leaves it unchanged. -/
theorem fingerprint_eq_iff_witness :
    build_cache_key "eu-west-1" "resources" [("param_b", "2"), ("param_a", "1")] =
      build_cache_key "eu-west-1" "resources" [("param_a", "1"), ("param_b", "2")] :=
  (fingerprint_eq_iff "eu-west-1" "resources" "eu-west-1" "resources"
    [("param_b", "2"), ("param_a", "1")] [("param_a", "1"), ("param_b", "2")]
    (by decide) (by decide) (by decide) (by decide) (by decide) (by decide)
    (by decide) (by decide)).mpr
    ⟨rfl, rfl, List.Perm.swap ("param_a", "1") ("param_b", "2") []⟩
